import Mathlib

/-!
Verification of the encoding-layer operators of `encoding/functions/encoding.py`
(`aggregate` and `scaled_l2`, differentiable forward/backward kernels).

Tensors are shallowly embedded as `Fin`-indexed functions into `ℚ`
(exact arithmetic in place of dense floating point), with the shapes
of the data model carried by the index types:
`A : Fin B → Fin N → Fin K → ℚ`, `X : Fin B → Fin N → Fin D → ℚ`,
`C : Fin K → Fin D → ℚ`, `S : Fin K → ℚ`.
-/

namespace FastFCN

/-- The broadcast difference
`X.unsqueeze(2).expand(B, N, K, D) - C.unsqueeze(0).unsqueeze(0)` shared by
`ScaledL2.forward` and `ScaledL2.backward`: entry `(b,i,k,d)` is
`X[b,i,d] - C[k,d]`. -/
def expandSub {B N K D : ℕ} (X : Fin B → Fin N → Fin D → ℚ)
    (C : Fin K → Fin D → ℚ) : Fin B → Fin N → Fin K → Fin D → ℚ :=
  fun b i k d => X b i d - C k d

/-- `ScaledL2.forward`: `SL = (broadcast difference).pow_(2).sum(3).mul_(S.view(1,1,K))`,
the per-axis-3 sum of squares of the broadcast difference, scaled by `S`. -/
def scaled_l2 {B N K D : ℕ} (X : Fin B → Fin N → Fin D → ℚ)
    (C : Fin K → Fin D → ℚ) (S : Fin K → ℚ) : Fin B → Fin N → Fin K → ℚ :=
  fun b i k => (∑ d, (expandSub X C b i k d) ^ 2) * S k

namespace ScaledL2

/-- The tensors retained by `ctx.save_for_backward(X, C, S, SL)` in
`ScaledL2.forward` and read back by `ctx.saved_variables` in
`ScaledL2.backward`: exactly X, C, S and the computed SL. -/
structure Ctx (B N K D : ℕ) where
  X : Fin B → Fin N → Fin D → ℚ
  C : Fin K → Fin D → ℚ
  S : Fin K → ℚ
  SL : Fin B → Fin N → Fin K → ℚ

/-- `ScaledL2.forward`: computes `SL`, saves `(X, C, S, SL)` for backward,
and returns `SL`. -/
def forward {B N K D : ℕ} (X : Fin B → Fin N → Fin D → ℚ)
    (C : Fin K → Fin D → ℚ) (S : Fin K → ℚ) :
    (Fin B → Fin N → Fin K → ℚ) × Ctx B N K D :=
  let SL := scaled_l2 X C S
  (SL, ⟨X, C, S, SL⟩)

/-- The intermediate of `ScaledL2.backward`:
`tmp = (broadcast difference).mul_((2 * GSL).mul_(S.view(1,1,K)).unsqueeze(3))`,
computed from the retained X, C, S. -/
def tmp {B N K D : ℕ} (ctx : Ctx B N K D)
    (GSL : Fin B → Fin N → Fin K → ℚ) : Fin B → Fin N → Fin K → Fin D → ℚ :=
  fun b i k d => expandSub ctx.X ctx.C b i k d * (2 * GSL b i k * ctx.S k)

/-- `GX = tmp.sum(2)` (sum over the codeword axis). -/
def GX {B N K D : ℕ} (ctx : Ctx B N K D)
    (GSL : Fin B → Fin N → Fin K → ℚ) : Fin B → Fin N → Fin D → ℚ :=
  fun b i d => ∑ k, tmp ctx GSL b i k d

/-- `GC = tmp.sum((0, 1)).mul_(-1)` (sum over batch and sample axes, negated). -/
def GC {B N K D : ℕ} (ctx : Ctx B N K D)
    (GSL : Fin B → Fin N → Fin K → ℚ) : Fin K → Fin D → ℚ :=
  fun k d => (∑ b, ∑ i, tmp ctx GSL b i k d) * (-1)

/-- `GS = SL.div(S.view(1,1,K)).mul_(GSL).sum((0, 1))`, where `SL` and `S`
are the retained tensors; the division is applied entrywise for every `k`,
with no guard on `S k`. -/
def GS {B N K D : ℕ} (ctx : Ctx B N K D)
    (GSL : Fin B → Fin N → Fin K → ℚ) : Fin K → ℚ :=
  fun k => ∑ b, ∑ i, (ctx.SL b i k / ctx.S k) * GSL b i k

/-- `ScaledL2.backward` reads only the retained context and the output
gradient, and returns the triple `(GX, GC, GS)`. -/
def backward {B N K D : ℕ} (ctx : Ctx B N K D)
    (GSL : Fin B → Fin N → Fin K → ℚ) :
    (Fin B → Fin N → Fin D → ℚ) × (Fin K → Fin D → ℚ) × (Fin K → ℚ) :=
  (GX ctx GSL, GC ctx GSL, GS ctx GSL)

end ScaledL2

/-- Modelled from the spec: the backend kernels `lib.cpu.aggregate_forward`
and `lib.gpu.aggregate_forward` called by `_aggregate.forward` are repository
code (the `encoding/lib` extension) not present under `src/`; the spec gives
`E[b,k,:] = Σ_{i=1..N} A[b,i,k] · (X[b,i,:] − C[k,:])`. -/
def aggregate_forward {B N K D : ℕ} (A : Fin B → Fin N → Fin K → ℚ)
    (X : Fin B → Fin N → Fin D → ℚ) (C : Fin K → Fin D → ℚ) :
    Fin B → Fin K → Fin D → ℚ :=
  fun b k d => ∑ i, A b i k * (X b i d - C k d)

/-- `aggregate(A, X, C)` calls `_aggregate.apply`, whose forward dispatches to
the backend kernel; on values it computes `aggregate_forward`. -/
def aggregate {B N K D : ℕ} (A : Fin B → Fin N → Fin K → ℚ)
    (X : Fin B → Fin N → Fin D → ℚ) (C : Fin K → Fin D → ℚ) :
    Fin B → Fin K → Fin D → ℚ :=
  aggregate_forward A X C

/-- Modelled from the spec: the backend kernels `lib.cpu.aggregate_backward`
and `lib.gpu.aggregate_backward` called by `_aggregate.backward` are
repository code (the `encoding/lib` extension) not present under `src/`;
the spec gives
`gradA[b,i,k] = Σ_d gradE[b,k,d]·(X[b,i,d]−C[k,d])`,
`gradX[b,i,d] = Σ_k gradE[b,k,d]·A[b,i,k]`,
`gradC[k,d] = −Σ_{b,i} gradE[b,k,d]·A[b,i,k]`. -/
def aggregate_backward_kernel {B N K D : ℕ} (gradE : Fin B → Fin K → Fin D → ℚ)
    (A : Fin B → Fin N → Fin K → ℚ) (X : Fin B → Fin N → Fin D → ℚ)
    (C : Fin K → Fin D → ℚ) :
    (Fin B → Fin N → Fin K → ℚ) × (Fin B → Fin N → Fin D → ℚ)
      × (Fin K → Fin D → ℚ) :=
  (fun b i k => ∑ d, gradE b k d * (X b i d - C k d),
   fun b i d => ∑ k, gradE b k d * A b i k,
   fun k d => -(∑ b, ∑ i, gradE b k d * A b i k))

namespace Aggregate

/-- The tensors retained by `ctx.save_for_backward(A, X, C)` in
`_aggregate.forward` and read back by `ctx.saved_variables` in
`_aggregate.backward`: exactly the three inputs, and not the output E. -/
structure Ctx (B N K D : ℕ) where
  A : Fin B → Fin N → Fin K → ℚ
  X : Fin B → Fin N → Fin D → ℚ
  C : Fin K → Fin D → ℚ

/-- `_aggregate.forward`: saves `(A, X, C)`, computes E via the backend
kernel, and returns E. -/
def forward {B N K D : ℕ} (A : Fin B → Fin N → Fin K → ℚ)
    (X : Fin B → Fin N → Fin D → ℚ) (C : Fin K → Fin D → ℚ) :
    (Fin B → Fin K → Fin D → ℚ) × Ctx B N K D :=
  (aggregate_forward A X C, ⟨A, X, C⟩)

/-- `_aggregate.backward`: reads only the retained `(A, X, C)` and the output
gradient, and returns `(gradA, gradX, gradC)` via the backend kernel. -/
def backward {B N K D : ℕ} (ctx : Ctx B N K D)
    (gradE : Fin B → Fin K → Fin D → ℚ) :
    (Fin B → Fin N → Fin K → ℚ) × (Fin B → Fin N → Fin D → ℚ)
      × (Fin K → Fin D → ℚ) :=
  aggregate_backward_kernel gradE ctx.A ctx.X ctx.C

end Aggregate

/-! Backend dispatch model. Each tensor taking part in an `_aggregate` call
carries its memory residency (`is_cuda`), and the dispatched calls are
instrumented to return, alongside their result, which numeric backend
(`lib.gpu` or `lib.cpu`) the dispatch selected. -/

/-- The two numeric backends: the general-purpose processor (`lib.cpu`) and
the accelerator (`lib.gpu`). -/
inductive Device where
  | cpu : Device
  | gpu : Device
deriving DecidableEq

/-- A (B,N,K)-shaped tensor together with its memory residency flag. -/
structure DT3 (a b c : ℕ) where
  is_cuda : Bool
  val : Fin a → Fin b → Fin c → ℚ

/-- A (K,D)-shaped tensor together with its memory residency flag. -/
structure DT2 (a b : ℕ) where
  is_cuda : Bool
  val : Fin a → Fin b → ℚ

namespace Aggregate

/-- The retained `(A, X, C)` with residency flags. -/
structure DCtx (B N K D : ℕ) where
  A : DT3 B N K
  X : DT3 B N D
  C : DT2 K D

/-- `_aggregate.forward` with dispatch: `if A.is_cuda:` call
`lib.gpu.aggregate_forward` `else` call `lib.cpu.aggregate_forward`
(both backends compute the spec formula; their numerical equivalence is
part of the spec's contract). The selected backend is returned alongside
the output and the saved context. -/
def forwardDev {B N K D : ℕ} (A : DT3 B N K) (X : DT3 B N D) (C : DT2 K D) :
    Device × (Fin B → Fin K → Fin D → ℚ) × DCtx B N K D :=
  if A.is_cuda then
    (Device.gpu, aggregate_forward A.val X.val C.val, ⟨A, X, C⟩)
  else
    (Device.cpu, aggregate_forward A.val X.val C.val, ⟨A, X, C⟩)

/-- `_aggregate.backward` with dispatch: `if A.is_cuda:` (A being the
retained first input) call `lib.gpu.aggregate_backward` `else` call
`lib.cpu.aggregate_backward`. -/
def backwardDev {B N K D : ℕ} (ctx : DCtx B N K D) (gradE : DT3 B K D) :
    Device × ((Fin B → Fin N → Fin K → ℚ) × (Fin B → Fin N → Fin D → ℚ)
      × (Fin K → Fin D → ℚ)) :=
  if ctx.A.is_cuda then
    (Device.gpu, aggregate_backward_kernel gradE.val ctx.A.val ctx.X.val ctx.C.val)
  else
    (Device.cpu, aggregate_backward_kernel gradE.val ctx.A.val ctx.X.val ctx.C.val)

end Aggregate

/-! Non-finite value model. The kernels run on IEEE floating-point data;
for the degenerate-scale analysis the exact-value model `ℚ` is refined to
values that are either a finite number or non-finite (NaN or an infinity).
Sums and products with a non-finite operand are non-finite (a NaN operand
gives NaN; an infinite operand gives an infinity or NaN), and division by
zero is non-finite (`0/0` is NaN, `x/0` with `x ≠ 0` is an infinity), so a
single non-finite constructor is a sound abstraction for tracking where a
computation stops being finite. -/

/-- A floating-point value abstracted as either finite (with its exact
value) or non-finite (NaN or ±infinity). -/
inductive FV where
  | fin : ℚ → FV
  | nonFinite : FV
deriving DecidableEq

/-- Addition: finite on finite operands, non-finite as soon as an operand
is non-finite. -/
def FV.add : FV → FV → FV
  | FV.fin a, FV.fin b => FV.fin (a + b)
  | _, _ => FV.nonFinite

/-- Multiplication: finite on finite operands, non-finite as soon as an
operand is non-finite. -/
def FV.mul : FV → FV → FV
  | FV.fin a, FV.fin b => FV.fin (a * b)
  | _, _ => FV.nonFinite

/-- Division: non-finite when the divisor is zero (NaN for `0/0`, an
infinity otherwise) or when an operand is non-finite. -/
def FV.div : FV → FV → FV
  | FV.fin a, FV.fin b => if b = 0 then FV.nonFinite else FV.fin (a / b)
  | _, _ => FV.nonFinite

/-- Whether the value is finite. -/
def FV.isFinite : FV → Bool
  | FV.fin _ => true
  | FV.nonFinite => false

instance : Add FV := ⟨FV.add⟩

instance : Zero FV := ⟨FV.fin 0⟩

theorem FV.fin_add_fin (a b : ℚ) : FV.fin a + FV.fin b = FV.fin (a + b) := rfl

theorem FV.nonFinite_add (a : FV) : FV.nonFinite + a = FV.nonFinite := by
  cases a <;> rfl

theorem FV.add_nonFinite (a : FV) : a + FV.nonFinite = FV.nonFinite := by
  cases a <;> rfl

theorem FV.zero_def : (0 : FV) = FV.fin 0 := rfl

theorem FV.add_assoc' (a b c : FV) : a + b + c = a + (b + c) := by
  cases a <;> cases b <;> cases c <;>
    simp [FV.fin_add_fin, FV.nonFinite_add, FV.add_nonFinite, add_assoc]

theorem FV.add_comm' (a b : FV) : a + b = b + a := by
  cases a <;> cases b <;>
    simp [FV.fin_add_fin, FV.nonFinite_add, FV.add_nonFinite, add_comm]

theorem FV.zero_add' (a : FV) : 0 + a = a := by
  cases a
  · rw [FV.zero_def, FV.fin_add_fin, zero_add]
  · rfl

theorem FV.add_zero' (a : FV) : a + 0 = a := by
  cases a
  · rw [FV.zero_def, FV.fin_add_fin, add_zero]
  · rfl

instance : AddCommMonoid FV where
  add_assoc := FV.add_assoc'
  zero_add := FV.zero_add'
  add_zero := FV.add_zero'
  add_comm := FV.add_comm'
  nsmul := nsmulRec

/-- `ScaledL2.backward`'s computation of
`GS = SL.div(S.view(1,1,K)).mul_(GSL).sum((0, 1))` carried out in the
non-finite value model, with `SL` the value retained by the paired forward
call on finite inputs X, C, S and a finite output gradient GSL. -/
def ScaledL2.GSfv {B N K D : ℕ} (X : Fin B → Fin N → Fin D → ℚ)
    (C : Fin K → Fin D → ℚ) (S : Fin K → ℚ)
    (GSL : Fin B → Fin N → Fin K → ℚ) : Fin K → FV :=
  fun k => ∑ b, ∑ i,
    FV.mul (FV.div (FV.fin (scaled_l2 X C S b i k)) (FV.fin (S k)))
      (FV.fin (GSL b i k))

/-! Concrete example tensors for the hand-computed cases of the spec. -/

/-- `X = [[[2.0]]]` (shape (1,1,1)). -/
def Xex1 : Fin 1 → Fin 1 → Fin 1 → ℚ := fun _ _ _ => 2

/-- `C = [[0.0]]` (shape (1,1)). -/
def Cex1 : Fin 1 → Fin 1 → ℚ := fun _ _ => 0

/-- `S = [2.0]` (shape (1,)). -/
def Sex1 : Fin 1 → ℚ := fun _ => 2

/-- `S = [0.0]` (shape (1,)): a degenerate zero scale. -/
def Sz1 : Fin 1 → ℚ := fun _ => 0

/-- `gradSL = [[[1.0]]]` (shape (1,1,1)). -/
def GSLex1 : Fin 1 → Fin 1 → Fin 1 → ℚ := fun _ _ _ => 1

/-- `A = [[[0.5],[0.5]]]` (shape (1,2,1)). -/
def Aex2 : Fin 1 → Fin 2 → Fin 1 → ℚ := fun _ _ _ => 1 / 2

/-- `X = [[[1.0],[3.0]]]` (shape (1,2,1)). -/
def Xex2 : Fin 1 → Fin 2 → Fin 1 → ℚ := fun _ i _ => if i = 0 then 1 else 3

/-- `C = [[0.0]]` (shape (1,1)). -/
def Cex2 : Fin 1 → Fin 1 → ℚ := fun _ _ => 0

/-! Shape-checked interface. -/

/-- An untyped rank-3 tensor: three dimension sizes together with entries. -/
structure UTensor3 where
  n1 : ℕ
  n2 : ℕ
  n3 : ℕ
  val : Fin n1 → Fin n2 → Fin n3 → ℚ

/-- An untyped rank-2 tensor. -/
structure UTensor2 where
  n1 : ℕ
  n2 : ℕ
  val : Fin n1 → Fin n2 → ℚ

/-- An untyped rank-1 tensor. -/
structure UTensor1 where
  n1 : ℕ
  val : Fin n1 → ℚ

/-- Whether a checked call aborted with an error. -/
def resultIsError : Except String UTensor3 → Bool
  | Except.error _ => true
  | Except.ok _ => false

/-- Modelled from the spec: the shape validation of an `aggregate` call is
performed by the backend kernels (`encoding/lib`, repository code not under
`src/`) and the tensor framework, not by `encoding.py` itself; the spec
requires that a shape/dimension mismatch be "detected before computation",
"abort the call and signal a precondition-violation error identifying the
offending dimension". Every dimension constraint of the data model is
checked before the kernel computation is invoked. -/
def aggregate_checked (A X : UTensor3) (C : UTensor2) :
    Except String UTensor3 :=
  if hb : A.n1 = X.n1 then
    if hn : A.n2 = X.n2 then
      if hk : A.n3 = C.n1 then
        if hd : X.n3 = C.n2 then
          Except.ok ⟨A.n1, C.n1, C.n2, fun b k d =>
            ∑ i : Fin A.n2, A.val b i (Fin.cast hk.symm k)
              * (X.val (Fin.cast hb b) (Fin.cast hn i) (Fin.cast hd.symm d)
                  - C.val k d)⟩
        else Except.error "feature dimension mismatch between X and C"
      else Except.error "codeword dimension mismatch between A and C"
    else Except.error "sample dimension mismatch between A and X"
  else Except.error "batch dimension mismatch between A and X"

/-- Modelled from the spec: shape validation of a `scaled_l2` call, checked
before the computation is performed (same contract as `aggregate_checked`). -/
def scaled_l2_checked (X : UTensor3) (C : UTensor2) (S : UTensor1) :
    Except String UTensor3 :=
  if hd : X.n3 = C.n2 then
    if hk : S.n1 = C.n1 then
      Except.ok ⟨X.n1, X.n2, C.n1, fun b i k =>
        (∑ d : Fin C.n2, (X.val b i (Fin.cast hd.symm d) - C.val k d) ^ 2)
          * S.val (Fin.cast hk.symm k)⟩
    else Except.error "scale dimension mismatch between S and C"
  else Except.error "feature dimension mismatch between X and C"

/-! Storage-identity trace model for `ScaledL2`. A tensor value is tagged
with the identity of the storage holding it; an in-place method
(trailing-underscore `pow_`, `mul_`) writes into the storage of its
receiver and keeps its id, while an allocating operation (`-`, `sum`,
`div`, `2 * GSL`) returns a fresh id drawn from a counter. Each trace
returns the result, the advanced counter, and the list of storage ids that
were written in place. -/

/-- A tensor value tagged with the identity of its storage. -/
structure TT (τ : Type) where
  id : ℕ
  val : τ

/-- `ScaledL2.forward` as a storage trace, `n0` being the first fresh id:
`sub` (the broadcast difference) allocates, `.pow_(2)` writes `sub` in
place, `.sum(3)` allocates, `.mul_(S.view(1,1,K))` writes the sum in
place. -/
def ScaledL2.forwardTrace {B N K D : ℕ} (n0 : ℕ)
    (X : TT (Fin B → Fin N → Fin D → ℚ)) (C : TT (Fin K → Fin D → ℚ))
    (S : TT (Fin K → ℚ)) :
    TT (Fin B → Fin N → Fin K → ℚ) × ℕ × List ℕ :=
  let sub : TT (Fin B → Fin N → Fin K → Fin D → ℚ) :=
    ⟨n0, expandSub X.val C.val⟩
  let p : TT (Fin B → Fin N → Fin K → Fin D → ℚ) :=
    ⟨sub.id, fun b i k d => sub.val b i k d ^ 2⟩
  let s3 : TT (Fin B → Fin N → Fin K → ℚ) :=
    ⟨n0 + 1, fun b i k => ∑ d, p.val b i k d⟩
  let SL : TT (Fin B → Fin N → Fin K → ℚ) :=
    ⟨s3.id, fun b i k => s3.val b i k * S.val k⟩
  (SL, n0 + 2, [p.id, SL.id])

/-- `ScaledL2.backward` as a storage trace over the retained X, C, S, SL and
the output gradient GSL: the broadcast difference and `2 * GSL` allocate,
`.mul_(S.view(1,1,K))` writes `2 * GSL` in place, the outer `.mul_(...)`
writes the difference in place (giving `tmp`), `tmp.sum(2)` and
`tmp.sum((0,1))` allocate, `.mul_(-1)` writes the latter in place,
`SL.div(S.view(1,1,K))` allocates, `.mul_(GSL)` writes it in place, and the
final `.sum((0,1))` allocates. -/
def ScaledL2.backwardTrace {B N K D : ℕ} (n0 : ℕ)
    (X : TT (Fin B → Fin N → Fin D → ℚ)) (C : TT (Fin K → Fin D → ℚ))
    (S : TT (Fin K → ℚ)) (SL : TT (Fin B → Fin N → Fin K → ℚ))
    (GSL : TT (Fin B → Fin N → Fin K → ℚ)) :
    (TT (Fin B → Fin N → Fin D → ℚ) × TT (Fin K → Fin D → ℚ)
      × TT (Fin K → ℚ)) × ℕ × List ℕ :=
  let sub : TT (Fin B → Fin N → Fin K → Fin D → ℚ) :=
    ⟨n0, expandSub X.val C.val⟩
  let g2 : TT (Fin B → Fin N → Fin K → ℚ) :=
    ⟨n0 + 1, fun b i k => 2 * GSL.val b i k⟩
  let g2s : TT (Fin B → Fin N → Fin K → ℚ) :=
    ⟨g2.id, fun b i k => g2.val b i k * S.val k⟩
  let tmpT : TT (Fin B → Fin N → Fin K → Fin D → ℚ) :=
    ⟨sub.id, fun b i k d => sub.val b i k d * g2s.val b i k⟩
  let GXt : TT (Fin B → Fin N → Fin D → ℚ) :=
    ⟨n0 + 2, fun b i d => ∑ k, tmpT.val b i k d⟩
  let GCs : TT (Fin K → Fin D → ℚ) :=
    ⟨n0 + 3, fun k d => ∑ b, ∑ i, tmpT.val b i k d⟩
  let GCt : TT (Fin K → Fin D → ℚ) :=
    ⟨GCs.id, fun k d => GCs.val k d * (-1)⟩
  let dv : TT (Fin B → Fin N → Fin K → ℚ) :=
    ⟨n0 + 4, fun b i k => SL.val b i k / S.val k⟩
  let dvm : TT (Fin B → Fin N → Fin K → ℚ) :=
    ⟨dv.id, fun b i k => dv.val b i k * GSL.val b i k⟩
  let GSt : TT (Fin K → ℚ) :=
    ⟨n0 + 5, fun k => ∑ b, ∑ i, dvm.val b i k⟩
  ((GXt, GCt, GSt), n0 + 6, [g2s.id, tmpT.id, GCt.id, dvm.id])

/-! Concrete tagged and untyped tensors used by the witnesses. -/

/-- X=[[[2.0]]] in storage 0. -/
def Xtt : TT (Fin 1 → Fin 1 → Fin 1 → ℚ) := ⟨0, Xex1⟩

/-- C=[[0.0]] in storage 1. -/
def Ctt : TT (Fin 1 → Fin 1 → ℚ) := ⟨1, Cex1⟩

/-- S=[2.0] in storage 2. -/
def Stt : TT (Fin 1 → ℚ) := ⟨2, Sex1⟩

/-- SL=[[[8.0]]] in storage 3. -/
def SLtt : TT (Fin 1 → Fin 1 → Fin 1 → ℚ) := ⟨3, fun _ _ _ => 8⟩

/-- gradSL=[[[1.0]]] in storage 4. -/
def GSLtt : TT (Fin 1 → Fin 1 → Fin 1 → ℚ) := ⟨4, GSLex1⟩

/-- A of shape (1,1,1). -/
def Amis : UTensor3 := ⟨1, 1, 1, fun _ _ _ => 0⟩

/-- X of shape (1,1,2). -/
def Xmis : UTensor3 := ⟨1, 1, 2, fun _ _ _ => 0⟩

/-- C of shape (1,3): its feature dimension 3 disagrees with X's trailing
dimension 2. -/
def Cmis : UTensor2 := ⟨1, 3, fun _ _ => 0⟩

/-- S of shape (2,): its length disagrees with C's codeword count 1. -/
def Smis : UTensor1 := ⟨2, fun _ => 0⟩

/-- Claim C1: for every X (B,N,D), C (K,D), S (K,), `scaled_l2` returns the
(B,N,K) tensor with entry `SL[b,i,k] = S[k] * Σ_d (X[b,i,d] - C[k,d])^2`;
in particular for B=N=K=D=1, X=[[[2.0]]], C=[[0.0]], S=[2.0] the result is
[[[8.0]]]. -/
theorem scaled_l2_forward_correct :
    (∀ (B N K D : ℕ) (X : Fin B → Fin N → Fin D → ℚ) (C : Fin K → Fin D → ℚ)
      (S : Fin K → ℚ) (b : Fin B) (i : Fin N) (k : Fin K),
      scaled_l2 X C S b i k = S k * ∑ d, (X b i d - C k d) ^ 2)
    ∧ scaled_l2 Xex1 Cex1 Sex1 0 0 0 = 8 := by
  constructor
  · intro B N K D X C S b i k
    simp [scaled_l2, expandSub, mul_comm]
  · norm_num [scaled_l2, expandSub, Xex1, Cex1, Sex1]

/-- Claim C2: `ScaledL2.backward` returns GX (B,N,D) with
`GX[b,i,d] = Σ_k 2·gradSL[b,i,k]·S[k]·(X[b,i,d]−C[k,d])` and GC (K,D) with
`GC[k,d] = −Σ_{b,i} 2·gradSL[b,i,k]·S[k]·(X[b,i,d]−C[k,d])`. -/
theorem scaled_l2_backward_GX_GC_correct
    (B N K D : ℕ) (X : Fin B → Fin N → Fin D → ℚ) (C : Fin K → Fin D → ℚ)
    (S : Fin K → ℚ) (GSL : Fin B → Fin N → Fin K → ℚ) :
    (∀ (b : Fin B) (i : Fin N) (d : Fin D),
      (ScaledL2.backward (ScaledL2.forward X C S).2 GSL).1 b i d
        = ∑ k, 2 * GSL b i k * S k * (X b i d - C k d))
    ∧ (∀ (k : Fin K) (d : Fin D),
      (ScaledL2.backward (ScaledL2.forward X C S).2 GSL).2.1 k d
        = -(∑ b, ∑ i, 2 * GSL b i k * S k * (X b i d - C k d))) := by
  constructor
  · intro b i d
    have h : (ScaledL2.backward (ScaledL2.forward X C S).2 GSL).1 b i d
        = ∑ k, ScaledL2.tmp (ScaledL2.forward X C S).2 GSL b i k d := rfl
    rw [h]
    exact Finset.sum_congr rfl fun k _ => by
      simp only [ScaledL2.tmp, ScaledL2.forward, expandSub]; ring
  · intro k d
    have h : (ScaledL2.backward (ScaledL2.forward X C S).2 GSL).2.1 k d
        = (∑ b, ∑ i, ScaledL2.tmp (ScaledL2.forward X C S).2 GSL b i k d)
            * (-1) := rfl
    rw [h, mul_neg_one, neg_inj]
    exact Finset.sum_congr rfl fun b _ =>
      Finset.sum_congr rfl fun i _ => by
        simp only [ScaledL2.tmp, ScaledL2.forward, expandSub]; ring

/-- Claim C3: `ScaledL2.backward` returns GS (K,) with
`GS[k] = Σ_{b,i} (SL[b,i,k] / S[k]) * gradSL[b,i,k]` where `SL` is the
retained forward value `scaled_l2 X C S`; the division by `S[k]` is
performed unconditionally (the definition applies it for every `k`,
with no guard on `S k`). -/
theorem scaled_l2_backward_GS_correct
    (B N K D : ℕ) (X : Fin B → Fin N → Fin D → ℚ) (C : Fin K → Fin D → ℚ)
    (S : Fin K → ℚ) (GSL : Fin B → Fin N → Fin K → ℚ) :
    ∀ k : Fin K,
      (ScaledL2.backward (ScaledL2.forward X C S).2 GSL).2.2 k
        = ∑ b, ∑ i, (scaled_l2 X C S b i k / S k) * GSL b i k := by
  intro k
  rfl

/-- Claim C4: `aggregate` returns the (B,K,D) tensor with
`E[b,k,d] = Σ_i A[b,i,k] * (X[b,i,d] - C[k,d])`; in particular for
B=1,N=2,K=1,D=1 with A=[[0.5],[0.5]], X=[[1.0],[3.0]], C=[[0.0]] the
result is [[[2.0]]]. -/
theorem aggregate_forward_correct :
    (∀ (B N K D : ℕ) (A : Fin B → Fin N → Fin K → ℚ)
      (X : Fin B → Fin N → Fin D → ℚ) (C : Fin K → Fin D → ℚ)
      (b : Fin B) (k : Fin K) (d : Fin D),
      aggregate A X C b k d = ∑ i, A b i k * (X b i d - C k d))
    ∧ aggregate Aex2 Xex2 Cex2 0 0 0 = 2 := by
  constructor
  · intro B N K D A X C b k d
    rfl
  · norm_num [aggregate, aggregate_forward, Aex2, Xex2, Cex2, Fin.sum_univ_two]

/-- Claim C10: for every valid input, the gradients of `ScaledL2.backward`
satisfy, for every feature index d,
`(Σ_{b,i} GX[b,i,d]) + (Σ_k GC[k,d]) = 0`: GX sums the intermediate `tmp`
over the codeword axis while GC sums the same `tmp` (negated) over the batch
and sample axes. -/
theorem scaled_l2_backward_grad_balance
    (B N K D : ℕ) (ctx : ScaledL2.Ctx B N K D)
    (GSL : Fin B → Fin N → Fin K → ℚ) (d : Fin D) :
    (∑ b, ∑ i, (ScaledL2.backward ctx GSL).1 b i d)
      + (∑ k, (ScaledL2.backward ctx GSL).2.1 k d) = 0 := by
  have h1 : (∑ b, ∑ i, (ScaledL2.backward ctx GSL).1 b i d)
      = ∑ b, ∑ i, ∑ k, ScaledL2.tmp ctx GSL b i k d := rfl
  have h2 : (∑ k, (ScaledL2.backward ctx GSL).2.1 k d)
      = ∑ k, (∑ b, ∑ i, ScaledL2.tmp ctx GSL b i k d) * (-1) := rfl
  have h3 : (∑ b, ∑ i, ∑ k, ScaledL2.tmp ctx GSL b i k d)
      = ∑ k, ∑ b, ∑ i, ScaledL2.tmp ctx GSL b i k d := by
    calc (∑ b, ∑ i, ∑ k, ScaledL2.tmp ctx GSL b i k d)
        = ∑ b, ∑ k, ∑ i, ScaledL2.tmp ctx GSL b i k d :=
          Finset.sum_congr rfl fun b _ => Finset.sum_comm
      _ = ∑ k, ∑ b, ∑ i, ScaledL2.tmp ctx GSL b i k d := Finset.sum_comm
  rw [h1, h2, h3]
  simp [mul_neg_one]

/-- Claim C7: on every forward call, `_aggregate` retains exactly its three
inputs A, X, C — its saved context is `⟨A, X, C⟩` and its context type has
no field for the output E — and `ScaledL2` retains exactly X, C, S and the
computed output SL, with the retained SL equal to the returned output.
Each operator's backward is a function of the saved context and the
supplied output gradient alone (its only two arguments), so it reads only
the retained tensors plus that gradient. -/
theorem forward_retention :
    (∀ (B N K D : ℕ) (A : Fin B → Fin N → Fin K → ℚ)
      (X : Fin B → Fin N → Fin D → ℚ) (C : Fin K → Fin D → ℚ),
      (Aggregate.forward A X C).2 = Aggregate.Ctx.mk A X C)
    ∧ (∀ (B N K D : ℕ) (X : Fin B → Fin N → Fin D → ℚ)
      (C : Fin K → Fin D → ℚ) (S : Fin K → ℚ),
      (ScaledL2.forward X C S).2
        = ScaledL2.Ctx.mk X C S (ScaledL2.forward X C S).1) :=
  ⟨fun _ _ _ _ _ _ _ => rfl, fun _ _ _ _ _ _ _ => rfl⟩

/-- Claim C8: in both the forward and the backward pass of `_aggregate`,
the accelerator backend (`lib.gpu`) is selected if and only if the first
input A resides in accelerator memory, and the selected backend equals
`if A.is_cuda then gpu else cpu` — a function of A's residency flag alone,
independent of X, C, the output gradient, and any other configuration. -/
theorem aggregate_dispatch_policy :
    (∀ (B N K D : ℕ) (A : DT3 B N K) (X : DT3 B N D) (C : DT2 K D),
      ((Aggregate.forwardDev A X C).1 = Device.gpu ↔ A.is_cuda = true)
      ∧ (Aggregate.forwardDev A X C).1
          = (if A.is_cuda then Device.gpu else Device.cpu))
    ∧ (∀ (B N K D : ℕ) (ctx : Aggregate.DCtx B N K D) (gradE : DT3 B K D),
      ((Aggregate.backwardDev ctx gradE).1 = Device.gpu ↔ ctx.A.is_cuda = true)
      ∧ (Aggregate.backwardDev ctx gradE).1
          = (if ctx.A.is_cuda then Device.gpu else Device.cpu)) := by
  constructor
  · intro B N K D A X C
    unfold Aggregate.forwardDev
    cases h : A.is_cuda <;> simp
  · intro B N K D ctx gradE
    unfold Aggregate.backwardDev
    cases h : ctx.A.is_cuda <;> simp [h]

/-- Claim C5: for the valid input X=[[[2.0]]], C=[[0.0]], S=[0.0],
gradSL=[[[1.0]]] (B=N=K=D=1) with S[0] = 0, the `GS` computed by
`ScaledL2.backward` is non-finite at index 0: the division `SL/S` is not
guarded against a zero scale (it is applied for every `k`), and the
computation returns a value rather than detecting or reporting an error. -/
theorem scaled_l2_backward_GS_nonfinite_zero_scale :
    Sz1 0 = 0
    ∧ FV.isFinite (ScaledL2.GSfv Xex1 Cex1 Sz1 GSLex1 0) = false := by
  refine ⟨rfl, ?_⟩
  simp [ScaledL2.GSfv, Fin.sum_univ_one, FV.div, FV.mul, FV.isFinite,
    Sz1, GSLex1]

/-- Claim C6: a call with mismatched shapes — trailing dimension D or
codeword count K disagreeing across A, X, C, S, or batch/sample counts
disagreeing between A and X — makes both `aggregate_checked` and
`scaled_l2_checked` abort with a shape/dimension error; the checks precede
the kernel computation in the definitions, so no numeric work begins. -/
theorem checked_shape_mismatch_errors :
    (∀ (A X : UTensor3) (C : UTensor2),
      (A.n1 ≠ X.n1 ∨ A.n2 ≠ X.n2 ∨ A.n3 ≠ C.n1 ∨ X.n3 ≠ C.n2) →
      resultIsError (aggregate_checked A X C) = true)
    ∧ (∀ (X : UTensor3) (C : UTensor2) (S : UTensor1),
      (X.n3 ≠ C.n2 ∨ S.n1 ≠ C.n1) →
      resultIsError (scaled_l2_checked X C S) = true) := by
  constructor
  · intro A X C h
    unfold aggregate_checked
    split_ifs with h1 h2 h3 h4
    · tauto
    all_goals rfl
  · intro X C S h
    unfold scaled_l2_checked
    split_ifs with h1 h2
    · tauto
    all_goals rfl

/-- Witness for C6: concrete mismatched calls (X's trailing dimension 2
against C's feature dimension 3; S of length 2 against codeword count 1)
abort with an error. -/
theorem checked_shape_mismatch_errors_witness :
    resultIsError (aggregate_checked Amis Xmis Cmis) = true
    ∧ resultIsError (scaled_l2_checked Xmis Cmis Smis) = true :=
  ⟨checked_shape_mismatch_errors.1 Amis Xmis Cmis (by right; right; right; decide),
   checked_shape_mismatch_errors.2 Xmis Cmis Smis (by left; decide)⟩

/-- Claim C9: `ScaledL2`'s forward and backward never write into the
storage of the input tensors X, C, S, of the output gradient GSL, or of the
retained SL: every storage id written in place (by `pow_` / `mul_`) is a
fresh one, belonging to an intermediate allocated during the call; and the
traced outputs are pure functions of the input values (identical inputs
yield identical outputs), equal to `scaled_l2` and to the components of
`ScaledL2.backward`. -/
theorem scaled_l2_no_input_mutation
    (B N K D n0 : ℕ)
    (X : TT (Fin B → Fin N → Fin D → ℚ)) (C : TT (Fin K → Fin D → ℚ))
    (S : TT (Fin K → ℚ)) (SL : TT (Fin B → Fin N → Fin K → ℚ))
    (GSL : TT (Fin B → Fin N → Fin K → ℚ))
    (hX : X.id < n0) (hC : C.id < n0) (hS : S.id < n0)
    (hSL : SL.id < n0) (hG : GSL.id < n0) :
    ((ScaledL2.forwardTrace n0 X C S).2.2.all
        fun m => (m != X.id) && (m != C.id) && (m != S.id)) = true
    ∧ ((ScaledL2.backwardTrace n0 X C S SL GSL).2.2.all
        fun m => (m != X.id) && (m != C.id) && (m != S.id)
          && (m != SL.id) && (m != GSL.id)) = true
    ∧ (ScaledL2.forwardTrace n0 X C S).1.val = scaled_l2 X.val C.val S.val
    ∧ (ScaledL2.backwardTrace n0 X C S SL GSL).1.1.val
        = ScaledL2.GX ⟨X.val, C.val, S.val, SL.val⟩ GSL.val
    ∧ (ScaledL2.backwardTrace n0 X C S SL GSL).1.2.1.val
        = ScaledL2.GC ⟨X.val, C.val, S.val, SL.val⟩ GSL.val
    ∧ (ScaledL2.backwardTrace n0 X C S SL GSL).1.2.2.val
        = ScaledL2.GS ⟨X.val, C.val, S.val, SL.val⟩ GSL.val := by
  refine ⟨?_, ?_, rfl, rfl, rfl, rfl⟩
  · simp only [ScaledL2.forwardTrace, List.all_cons, List.all_nil,
      Bool.and_eq_true, bne_iff_ne, ne_eq, Bool.and_true]
    omega
  · simp only [ScaledL2.backwardTrace, List.all_cons, List.all_nil,
      Bool.and_eq_true, bne_iff_ne, ne_eq, Bool.and_true]
    omega

/-- Witness for C9: the trace of a forward/backward pair on concrete
tensors in storages 0..4, with fresh ids starting at 5, writes no input
storage in place and returns the pure results. -/
theorem scaled_l2_no_input_mutation_witness :
    ((ScaledL2.forwardTrace 5 Xtt Ctt Stt).2.2.all
        fun m => (m != Xtt.id) && (m != Ctt.id) && (m != Stt.id)) = true
    ∧ ((ScaledL2.backwardTrace 5 Xtt Ctt Stt SLtt GSLtt).2.2.all
        fun m => (m != Xtt.id) && (m != Ctt.id) && (m != Stt.id)
          && (m != SLtt.id) && (m != GSLtt.id)) = true
    ∧ (ScaledL2.forwardTrace 5 Xtt Ctt Stt).1.val
        = scaled_l2 Xtt.val Ctt.val Stt.val
    ∧ (ScaledL2.backwardTrace 5 Xtt Ctt Stt SLtt GSLtt).1.1.val
        = ScaledL2.GX ⟨Xtt.val, Ctt.val, Stt.val, SLtt.val⟩ GSLtt.val
    ∧ (ScaledL2.backwardTrace 5 Xtt Ctt Stt SLtt GSLtt).1.2.1.val
        = ScaledL2.GC ⟨Xtt.val, Ctt.val, Stt.val, SLtt.val⟩ GSLtt.val
    ∧ (ScaledL2.backwardTrace 5 Xtt Ctt Stt SLtt GSLtt).1.2.2.val
        = ScaledL2.GS ⟨Xtt.val, Ctt.val, Stt.val, SLtt.val⟩ GSLtt.val :=
  scaled_l2_no_input_mutation 1 1 1 1 5 Xtt Ctt Stt SLtt GSLtt
    (by decide) (by decide) (by decide) (by decide) (by decide)

end FastFCN
